import Mathlib

/-!
# Shallow embedding of the Fronius Modbus↔MQTT bridge core

Lean embedding of `src/fronius_modbus/controller.py` and
`src/fronius_modbus/modbus_client.py`: the diagnostic decoding layer,
the telemetry reader (`read_mppt_data`), the connection state machine
(`handle_modbus_connection`, `handle_mqtt_connection`,
`handle_data_polling`), the backoff curve and the drift-corrected poll
scheduler.  Python floats are modelled as rationals; the external
collaborators (pysunspec2 device, MQTT publisher) are modelled as
oracles: booleans / optional values describing each call's outcome.
-/

namespace Fronius

/-! ## Diagnostic decoder (`modbus_client.py`, `OperatingStateFormatter`,
`ModuleEventsDecoder`) -/

/-- `OperatingStateFormatter.STATE_NAMES`: the fixed table of the ten
known operating-state codes, in source (insertion) order. -/
def STATE_NAMES : List (Int × String) :=
  [(1, "OFF"), (2, "SLEEPING"), (3, "STARTING"), (4, "MPPT"),
   (5, "THROTTLED"), (6, "SHUTTING_DOWN"), (7, "FAULT"),
   (8, "STANDBY"), (9, "TEST"), (10, "RESERVED_10")]

/-- `OperatingStateFormatter.format_state`: `None → "unknown"`, a table
hit returns its name, otherwise `f"unknown_{state_value}"`. -/
def format_state (state_value : Option Int) : String :=
  match state_value with
  | none => "unknown"
  | some v => (STATE_NAMES.lookup v).getD ("unknown_" ++ toString v)

/-- `ModuleEventsDecoder.EVENT_NAMES`: bit position to event name, in
source (insertion) order, which is ascending. -/
def EVENT_NAMES : List (Nat × String) :=
  [(0, "GROUND_FAULT"), (1, "INPUT_OVER_VOLTAGE"), (3, "DC_DISCONNECT"),
   (5, "CABINET_OPEN"), (6, "MANUAL_SHUTDOWN"), (7, "OVER_TEMP"),
   (12, "BLOWN_FUSE"), (13, "UNDER_TEMP"), (14, "MEMORY_LOSS"),
   (15, "ARC_DETECTION"), (20, "TEST_FAILED"),
   (21, "INPUT_UNDER_VOLTAGE"), (22, "INPUT_OVER_CURRENT")]

/-- `ModuleEventsDecoder.decode_events`: `None → "unavailable"`,
`0 → "No active events"`, otherwise collect the names of the set table
bits in table order and join with `", "`, falling back to
`"No active events"` when no table bit is set. -/
def decode_events (events_bitfield : Option Nat) : String :=
  match events_bitfield with
  | none => "unavailable"
  | some n =>
    if n = 0 then "No active events"
    else
      let active_events :=
        EVENT_NAMES.filterMap fun p =>
          if n &&& (1 <<< p.1) ≠ 0 then some p.2 else none
      if active_events.isEmpty then "No active events"
      else String.intercalate ", " active_events

/-! ## Backoff (`controller.py`, `exponential_backoff`) -/

/-- `exponential_backoff(attempt, max_delay=60) = min(2**attempt, max_delay)`. -/
def exponential_backoff (attempt : Nat) (max_delay : Nat := 60) : Nat :=
  min (2 ^ attempt) max_delay

/-! ## Telemetry reader (`modbus_client.py`, `ModbusClient.read_mppt_data`) -/

/-- `MPPTChannelData`: voltage/current/power of one MPPT channel
(Python floats modelled as rationals). -/
structure MPPTChannelData where
  voltage : ℚ
  current : ℚ
  power : ℚ
  deriving Repr, DecidableEq

instance : Inhabited MPPTChannelData := ⟨⟨0, 0, 0⟩⟩

/-- `DiagnosticData`: raw diagnostic fields plus the two derived
formatted strings. -/
structure DiagnosticData where
  temperature : Option ℚ
  operating_state : Option Int
  module_events : Option Nat
  formatted_state : String
  formatted_events : String
  deriving Repr, DecidableEq

/-- `DiagnosticData.create`: builds the record and eagerly derives the
formatted fields from the raw ones. -/
def DiagnosticData.create (temperature : Option ℚ) (operating_state : Option Int)
    (module_events : Option Nat) : DiagnosticData :=
  { temperature := temperature
    operating_state := operating_state
    module_events := module_events
    formatted_state := format_state operating_state
    formatted_events := decode_events module_events }

/-- `MPPTModuleData`: one module's power data with its diagnostics. -/
structure MPPTModuleData where
  voltage : ℚ
  current : ℚ
  power : ℚ
  diagnostics : DiagnosticData
  deriving Repr, DecidableEq

/-- `MPPTData`: the snapshot returned by `read_mppt_data` (the
`timestamp` field carries no information relevant here and is omitted). -/
structure MPPTData where
  mppt1 : MPPTChannelData
  mppt2 : MPPTChannelData
  total_power : ℚ
  modules : List MPPTModuleData
  deriving Repr, DecidableEq

/-- Oracle describing what the pysunspec2 device yields for one MPPT
module during `read_mppt_data`'s per-module loop.  `core = none` models
an exception raised while reading the module's DCV/DCA/DCW core fields
(the loop body's outer `except`); `core = some (v, a, w)` models a
successful core read whose three fields are each `None` or a value.
The three diagnostic fields are the values the inner `try` blocks leave
behind: absence of the attribute, a `None` value or a caught conversion
error all leave the local at `None`, modelled directly as `none`. -/
structure ModuleSource where
  core : Option (Option ℚ × Option ℚ × Option ℚ)
  tmp : Option ℚ
  dcst : Option Int
  dcevt : Option Nat

/-- Oracle for the device-level part of `read_mppt_data`: whether a
device handle exists (`self._device`), whether model 160 is among the
scanned models, whether `model_160.read()` raises, and the per-module
outcomes (`num_modules = model_160.N.value` is the list length). -/
structure DeviceRead where
  hasDevice : Bool
  hasModel160 : Bool
  readOk : Bool
  modules : List ModuleSource

/-- One iteration of `read_mppt_data`'s loop: the channel data appended
to `mppt_channels` (zero-filled when the core read raised, each missing
field defaulted to `0.0` otherwise). -/
def channelOf (m : ModuleSource) : MPPTChannelData :=
  match m.core with
  | none => ⟨0, 0, 0⟩
  | some (v, a, w) => ⟨v.getD 0, a.getD 0, w.getD 0⟩

/-- One iteration of `read_mppt_data`'s loop: the module entry appended
to `modules_with_diagnostics` (zero power data with empty diagnostics
when the core read raised). -/
def moduleOf (m : ModuleSource) : MPPTModuleData :=
  match m.core with
  | none => ⟨0, 0, 0, DiagnosticData.create none none none⟩
  | some (v, a, w) =>
    ⟨v.getD 0, a.getD 0, w.getD 0,
      DiagnosticData.create m.tmp m.dcst m.dcevt⟩

/-- The padding step of `read_mppt_data`: append zero-valued channels
until `mppt_channels` has at least two entries. -/
def padChannels : List MPPTChannelData → List MPPTChannelData
  | [] => [⟨0, 0, 0⟩, ⟨0, 0, 0⟩]
  | [c] => [c, ⟨0, 0, 0⟩]
  | cs => cs

/-- `ModbusClient.read_mppt_data`: `None` when no device handle exists,
model 160 is absent, the block-level read raises, or fewer than one
module is reported; otherwise the snapshot assembled by the loop, with
`total_power` accumulated over the (possibly zero-filled) per-module
powers before padding. -/
def read_mppt_data (d : DeviceRead) : Option MPPTData :=
  if ¬d.hasDevice then none
  else if ¬d.hasModel160 then none
  else if ¬d.readOk then none
  else if d.modules.length < 1 then none
  else
    let mppt_channels := d.modules.map channelOf
    let modules_with_diagnostics := d.modules.map moduleOf
    let total_power := (mppt_channels.map MPPTChannelData.power).sum
    let padded := padChannels mppt_channels
    some
      { mppt1 := padded.headI
        mppt2 := padded.tail.headI
        total_power := total_power
        modules := modules_with_diagnostics }

/-! ## Connection state machine (`controller.py`) -/

/-- Device identity as read from Model 1 (opaque here). -/
structure DeviceInfo where
  manufacturer : String
  model : String
  serial_number : String
  deriving Repr, DecidableEq

/-- `ConnectionState`: connection flags and retry counters, the source's
field names kept. -/
structure ConnectionState where
  modbus_connected : Bool := false
  mqtt_connected : Bool := false
  model_160_verified : Bool := false
  device_info : Option DeviceInfo := none
  modbus_retry_count : Nat := 0
  mqtt_retry_count : Nat := 0
  model_160_retry_count : Nat := 0
  deriving Repr, DecidableEq

/-- The freshly constructed `ConnectionState()` with all defaults. -/
def ConnectionState.init : ConnectionState := {}

/-- Oracle for the collaborator calls `handle_modbus_connection` makes:
the outcome of `modbus_client.connect()`, of
`modbus_client.verify_model_160()` and of
`modbus_client.read_device_info()`. -/
structure ModbusOracle where
  connectOk : Bool
  verifyOk : Bool
  deviceInfo : Option DeviceInfo

/-- `handle_modbus_connection`: returns the updated state together with
the `(success, delay_seconds)` pair the source returns. -/
def handle_modbus_connection (o : ModbusOracle) (state : ConnectionState) :
    ConnectionState × Bool × Option Nat :=
  if state.modbus_connected then (state, true, none)
  else if o.connectOk then
    let state := { state with modbus_connected := true, modbus_retry_count := 0 }
    if o.verifyOk then
      let state := { state with model_160_verified := true, model_160_retry_count := 0,
                                device_info := o.deviceInfo }
      (state, true, none)
    else
      let state := { state with modbus_connected := false, model_160_verified := false }
      let delay := exponential_backoff state.model_160_retry_count
      ({ state with model_160_retry_count := state.model_160_retry_count + 1 },
       false, some delay)
  else
    let delay := exponential_backoff state.modbus_retry_count
    ({ state with modbus_retry_count := state.modbus_retry_count + 1 },
     false, some delay)

/-- Oracle for the collaborator calls `handle_mqtt_connection` makes:
the outcome of `mqtt_publisher.connect()` and of
`mqtt_publisher.publish_discovery(...)` (the latter only logged). -/
structure MqttOracle where
  connectOk : Bool
  discoveryOk : Bool

/-- Record of whether `handle_mqtt_connection` attempted a discovery
publication (it does so exactly on a fresh successful connect with
`state.device_info` known). -/
def discoveryAttempted (o : MqttOracle) (state : ConnectionState) : Bool :=
  !state.mqtt_connected && o.connectOk && state.device_info.isSome

/-- `handle_mqtt_connection`: returns the updated state with the
`(success, delay_seconds)` pair.  The discovery publication inside the
success branch mutates no state (its failure is only logged). -/
def handle_mqtt_connection (o : MqttOracle) (state : ConnectionState) :
    ConnectionState × Bool × Option Nat :=
  if state.mqtt_connected then (state, true, none)
  else if o.connectOk then
    ({ state with mqtt_connected := true, mqtt_retry_count := 0 }, true, none)
  else
    let delay := exponential_backoff state.mqtt_retry_count
    ({ state with mqtt_retry_count := state.mqtt_retry_count + 1 },
     false, some delay)

/-- Oracle for the collaborator calls `handle_data_polling` makes: the
outcome of `modbus_client.read_mppt_data()` (`none` = falsy return), of
`mqtt_publisher.publish_sensor_data(...)` and of
`mqtt_publisher.is_connected()`. -/
structure PollingOracle where
  mpptData : Option MPPTData
  publishOk : Bool
  stillConnected : Bool

/-- `handle_data_polling`: early return unless connected and verified;
on read success publish when MQTT connected, demoting `mqtt_connected`
when the publish fails and the publisher then reports disconnected; on
read failure clear `modbus_connected` and `model_160_verified`. -/
def handle_data_polling (o : PollingOracle) (state : ConnectionState) :
    ConnectionState :=
  if ¬(state.modbus_connected ∧ state.model_160_verified) then state
  else
    match o.mpptData with
    | some _ =>
      if state.mqtt_connected then
        if ¬o.publishOk then
          if ¬o.stillConnected then { state with mqtt_connected := false }
          else state
        else state
      else state
    | none =>
      { state with modbus_connected := false, model_160_verified := false }

/-! ## Poll scheduler (`controller.py`, `calculate_sleep_time`) -/

/-- `calculate_sleep_time`: `time.time()` is passed in as `current_time`;
returns `(sleep_time, next_poll_time + poll_interval)` after the
fell-behind resync check. -/
def calculate_sleep_time (current_time next_poll_time : ℚ) (poll_interval : ℚ) :
    ℚ × ℚ :=
  let sleep_time := next_poll_time - current_time
  if sleep_time < -poll_interval then
    (0, current_time + poll_interval)
  else
    (sleep_time, next_poll_time + poll_interval)

/-- Reachability of a `ConnectionState` under the three transition
functions of the run loop, the collaborators behaving arbitrarily. -/
inductive Reachable : ConnectionState → Prop
  | init : Reachable ConnectionState.init
  | modbus (o : ModbusOracle) {s : ConnectionState} :
      Reachable s → Reachable (handle_modbus_connection o s).1
  | mqtt (o : MqttOracle) {s : ConnectionState} :
      Reachable s → Reachable (handle_mqtt_connection o s).1
  | poll (o : PollingOracle) {s : ConnectionState} :
      Reachable s → Reachable (handle_data_polling o s)

/-- Specification-side event decoder, following the claim's wording for
`decodeEvents` on a nonzero bitfield: scan the bit positions in
ascending order, keep the name of every set bit that has a table entry,
ignore set bits without one, join with `", "`, and fall back to
`"No active events"` when no table bit is set.  (All table positions
are below 23, so scanning `0..22` covers them.) -/
def decodeEventsSpec (n : Nat) : String :=
  let names := (List.range 23).filterMap fun b =>
    if n &&& (1 <<< b) ≠ 0 then EVENT_NAMES.lookup b else none
  if names.isEmpty then "No active events"
  else String.intercalate ", " names

/-! ## Helper lemmas -/

lemma lookup_eq_none_of_not_mem_keys {β : Type} (a : Nat) (L : List (Nat × β))
    (h : a ∉ L.map Prod.fst) : L.lookup a = none := by
  induction L with
  | nil => rfl
  | cons p L' ih =>
    obtain ⟨k, v⟩ := p
    simp only [List.map_cons, List.mem_cons, not_or] at h
    rw [List.lookup_cons]
    have hkf : (a == k) = false := beq_eq_false_iff_ne.mpr h.1
    rw [hkf]
    exact ih h.2

/-- Scanning an ascending superset of positions and looking each up in an
association table yields the association table's own filtered values, as
long as the scanned positions are duplicate-free and contain the table's
keys in order. -/
lemma filterMap_lookup_of_sublist {β : Type} (cond : Nat → Prop) [DecidablePred cond] :
    ∀ (S : List Nat) (L : List (Nat × β)), S.Nodup → (L.map Prod.fst).Sublist S →
      (S.filterMap fun b => if cond b then L.lookup b else none)
        = L.filterMap fun p => if cond p.1 then some p.2 else none := by
  intro S
  induction S with
  | nil =>
    intro L _ hsub
    have hL : L = [] := List.map_eq_nil_iff.mp (List.sublist_nil.mp hsub)
    subst hL
    rfl
  | cons s S' ih =>
    intro L hnd hsub
    have hsS' : s ∉ S' := (List.nodup_cons.mp hnd).1
    have hnd' : S'.Nodup := (List.nodup_cons.mp hnd).2
    match L with
    | [] =>
      simp [List.lookup_nil, ite_self]
    | (k, v) :: L' =>
      cases hsub with
      | cons _ h =>
        have hmem : s ∉ ((k, v) :: L').map Prod.fst := fun hm => hsS' (h.subset hm)
        have hnone : ((k, v) :: L').lookup s = none :=
          lookup_eq_none_of_not_mem_keys s _ hmem
        rw [List.filterMap_cons]
        simp only [hnone, ite_self]
        exact ih _ hnd' h
      | cons₂ _ h =>
        have hheadL : ((k, v) :: L').lookup k = some v := by
          rw [List.lookup_cons]
          simp
        have htail :
            (S'.filterMap fun b => if cond b then ((k, v) :: L').lookup b else none)
              = S'.filterMap fun b => if cond b then L'.lookup b else none := by
          apply List.filterMap_congr
          intro b hb
          have hbs : b ≠ k := fun he => hsS' (he ▸ hb)
          rw [List.lookup_cons]
          have hbf : (b == k) = false := beq_eq_false_iff_ne.mpr hbs
          rw [hbf]
        rw [List.filterMap_cons, List.filterMap_cons, hheadL, htail, ih _ hnd' h]

lemma sum_map_get_add_eraseIdx {α : Type} (f : α → ℚ) :
    ∀ (l : List α) (j : Nat) (hj : j < l.length),
      (l.map f).sum = f (l.get ⟨j, hj⟩) + ((l.eraseIdx j).map f).sum := by
  intro l
  induction l with
  | nil =>
    intro j hj
    simp at hj
  | cons a t ih =>
    intro j hj
    cases j with
    | zero => simp [List.eraseIdx]
    | succ j' =>
      have hj' : j' < t.length := by simpa using hj
      simp only [List.eraseIdx, List.map_cons, List.sum_cons, List.get]
      rw [ih j' hj']
      ring

/-- The snapshot `read_mppt_data` assembles once all block-level guards
pass. -/
lemma read_mppt_data_eq_some (d : DeviceRead)
    (hdev : d.hasDevice = true) (hmod : d.hasModel160 = true) (hread : d.readOk = true)
    (hN : 1 ≤ d.modules.length) :
    read_mppt_data d = some
      { mppt1 := (padChannels (d.modules.map channelOf)).headI
        mppt2 := (padChannels (d.modules.map channelOf)).tail.headI
        total_power := ((d.modules.map channelOf).map MPPTChannelData.power).sum
        modules := d.modules.map moduleOf } := by
  have hN' : ¬(d.modules.length < 1) := by omega
  simp [read_mppt_data, hdev, hmod, hread, hN']

/-! ## Claim theorems -/

/-- C5: `exponential_backoff(n) = min(2^n, 60)` for every 0-indexed
attempt `n`, is non-decreasing in `n`, is capped at 60, and yields the
curve 1, 2, 4, 8, 16, 32, 60, 60, ... -/
theorem exponential_backoff_spec (n : Nat) :
    exponential_backoff n = min (2 ^ n) 60 ∧
    exponential_backoff n ≤ exponential_backoff (n + 1) ∧
    exponential_backoff n ≤ 60 ∧
    (6 ≤ n → exponential_backoff n = 60) ∧
    exponential_backoff 0 = 1 ∧ exponential_backoff 1 = 2 ∧
    exponential_backoff 2 = 4 ∧ exponential_backoff 3 = 8 ∧
    exponential_backoff 4 = 16 ∧ exponential_backoff 5 = 32 ∧
    exponential_backoff 6 = 60 ∧ exponential_backoff 7 = 60 := by
  refine ⟨rfl, ?_, min_le_right _ _, ?_, rfl, rfl, rfl, rfl, rfl, rfl, rfl, rfl⟩
  · exact min_le_min (Nat.pow_le_pow_right (by norm_num) (Nat.le_succ n)) le_rfl
  · intro h6
    have h60 : 60 ≤ 2 ^ n :=
      le_trans (by norm_num) (Nat.pow_le_pow_right (by norm_num) h6)
    simp [exponential_backoff, Nat.min_eq_right h60]

/-- Witness for C5: the capped tail at attempt 7. -/
theorem exponential_backoff_spec_witness :
    6 ≤ 7 ∧ exponential_backoff 7 = 60 :=
  ⟨by decide, (exponential_backoff_spec 7).2.2.2.1 (by decide)⟩

/-- C8: `format_state` maps each code in `1..10` to its table name,
every integer outside `1..10` (negatives included) to
`"unknown_<code>"` with the code printed verbatim, and `None` to
`"unknown"`. -/
theorem format_state_spec :
    (∀ c : Int, (c < 1 ∨ 10 < c) → format_state (some c) = "unknown_" ++ toString c) ∧
    format_state none = "unknown" ∧
    format_state (some 1) = "OFF" ∧ format_state (some 2) = "SLEEPING" ∧
    format_state (some 3) = "STARTING" ∧ format_state (some 4) = "MPPT" ∧
    format_state (some 5) = "THROTTLED" ∧ format_state (some 6) = "SHUTTING_DOWN" ∧
    format_state (some 7) = "FAULT" ∧ format_state (some 8) = "STANDBY" ∧
    format_state (some 9) = "TEST" ∧ format_state (some 10) = "RESERVED_10" := by
  refine ⟨?_, rfl, rfl, rfl, rfl, rfl, rfl, rfl, rfl, rfl, rfl, rfl⟩
  intro c hc
  have h1 : (c == 1) = false := beq_eq_false_iff_ne.mpr (by omega)
  have h2 : (c == 2) = false := beq_eq_false_iff_ne.mpr (by omega)
  have h3 : (c == 3) = false := beq_eq_false_iff_ne.mpr (by omega)
  have h4 : (c == 4) = false := beq_eq_false_iff_ne.mpr (by omega)
  have h5 : (c == 5) = false := beq_eq_false_iff_ne.mpr (by omega)
  have h6 : (c == 6) = false := beq_eq_false_iff_ne.mpr (by omega)
  have h7 : (c == 7) = false := beq_eq_false_iff_ne.mpr (by omega)
  have h8 : (c == 8) = false := beq_eq_false_iff_ne.mpr (by omega)
  have h9 : (c == 9) = false := beq_eq_false_iff_ne.mpr (by omega)
  have h10 : (c == 10) = false := beq_eq_false_iff_ne.mpr (by omega)
  simp [format_state, STATE_NAMES, List.lookup, h1, h2, h3, h4, h5, h6, h7, h8, h9, h10]

/-- Witness for C8: a negative code prints verbatim. -/
theorem format_state_spec_witness :
    (-5 : Int) < 1 ∧ format_state (some (-5)) = "unknown_" ++ toString (-5 : Int) :=
  ⟨by norm_num, format_state_spec.1 (-5) (Or.inl (by norm_num))⟩

/-- C9: `decode_events` returns `"unavailable"` on `None`,
`"No active events"` on zero, and on every nonzero bitfield agrees with
the ascending-bit-position specification decoder (names of set table
bits in ascending order joined with `", "`, unknown bits ignored,
`"No active events"` when no table bit is set). -/
theorem decode_events_spec :
    decode_events none = "unavailable" ∧
    decode_events (some 0) = "No active events" ∧
    ∀ n : Nat, n ≠ 0 → decode_events (some n) = decodeEventsSpec n := by
  refine ⟨rfl, rfl, ?_⟩
  intro n h
  have hkeys : (EVENT_NAMES.map Prod.fst).Sublist (List.range 23) := by decide
  have hmain := filterMap_lookup_of_sublist (fun b => n &&& (1 <<< b) ≠ 0)
    (List.range 23) EVENT_NAMES (List.nodup_range 23) hkeys
  simp only [decode_events, decodeEventsSpec, if_neg h]
  rw [hmain]

/-- Witness for C9: bitfield with bit 2 (no table entry) and bit 20
(`TEST_FAILED`) set. -/
theorem decode_events_spec_witness :
    (1048580 : Nat) ≠ 0 ∧ decode_events (some 1048580) = decodeEventsSpec 1048580 :=
  ⟨by decide, decode_events_spec.2.2 1048580 (by decide)⟩

/-- C6: when the corresponding link flag is already true,
`handle_modbus_connection` and `handle_mqtt_connection` return success
with no delay and leave the entire state (retry counters included)
unchanged. -/
theorem already_connected_noop (o₁ : ModbusOracle) (o₂ : MqttOracle)
    (s₁ s₂ : ConnectionState)
    (h₁ : s₁.modbus_connected = true) (h₂ : s₂.mqtt_connected = true) :
    handle_modbus_connection o₁ s₁ = (s₁, true, none) ∧
    handle_mqtt_connection o₂ s₂ = (s₂, true, none) := by
  constructor
  · simp [handle_modbus_connection, h₁]
  · simp [handle_mqtt_connection, h₂]

/-- Witness for C6: a concrete already-connected state passes through
both steps untouched. -/
theorem already_connected_noop_witness :
    handle_modbus_connection ⟨false, false, none⟩ ⟨true, true, false, none, 3, 4, 5⟩
        = (⟨true, true, false, none, 3, 4, 5⟩, true, none) ∧
    handle_mqtt_connection ⟨false, false⟩ ⟨true, true, false, none, 3, 4, 5⟩
        = (⟨true, true, false, none, 3, 4, 5⟩, true, none) :=
  already_connected_noop ⟨false, false, none⟩ ⟨false, false⟩
    ⟨true, true, false, none, 3, 4, 5⟩ ⟨true, true, false, none, 3, 4, 5⟩ rfl rfl

/-- C7: when the schedule is more than one interval behind,
`calculate_sleep_time` returns a zero sleep and resyncs the next due
time to `now + interval`; otherwise the effective sleep is
`max(next_due - now, 0)` and the next due time advances on the fixed
grid `next_due + interval`. -/
theorem calculate_sleep_time_spec (current_time next_poll_time poll_interval : ℚ)
    (_hpos : 0 < poll_interval) :
    (next_poll_time - current_time < -poll_interval →
      calculate_sleep_time current_time next_poll_time poll_interval
        = (0, current_time + poll_interval)) ∧
    (¬next_poll_time - current_time < -poll_interval →
      max (calculate_sleep_time current_time next_poll_time poll_interval).1 0
          = max (next_poll_time - current_time) 0 ∧
      (calculate_sleep_time current_time next_poll_time poll_interval).2
        = next_poll_time + poll_interval) := by
  constructor
  · intro h
    simp [calculate_sleep_time, if_pos h]
  · intro h
    simp [calculate_sleep_time, if_neg h]

/-- Witness for C7: a schedule 100 s behind a 10 s interval resyncs. -/
theorem calculate_sleep_time_spec_witness :
    (0 : ℚ) < 10 ∧ (0 : ℚ) - 100 < -10 ∧
    calculate_sleep_time 100 0 10 = (0, 100 + 10) :=
  ⟨by norm_num, by norm_num,
    (calculate_sleep_time_spec 100 0 10 (by norm_num)).1 (by norm_num)⟩

/-- C1: `model_160_verified → modbus_connected` holds in the initial
state and in every state reachable under arbitrary sequences of
`handle_modbus_connection`, `handle_mqtt_connection` and
`handle_data_polling` with arbitrarily behaving collaborators. -/
theorem verified_implies_connected (s : ConnectionState) (hr : Reachable s)
    (hv : s.model_160_verified = true) : s.modbus_connected = true := by
  induction hr with
  | init => simp [ConnectionState.init] at hv
  | modbus o hr ih =>
    rename_i s'
    revert hv
    by_cases h1 : s'.modbus_connected
    · simp only [handle_modbus_connection, h1, if_true]
      intro _
      trivial
    · by_cases h2 : o.connectOk
      · by_cases h3 : o.verifyOk
        · simp [handle_modbus_connection, h1, h2, h3]
        · simp [handle_modbus_connection, h1, h2, h3]
      · simp only [handle_modbus_connection, h1, h2, if_false]
        intro hv'
        simp at hv' h1
        exact absurd (ih hv') (by simpa using h1)
  | mqtt o hr ih =>
    rename_i s'
    revert hv
    unfold handle_mqtt_connection
    by_cases h1 : s'.mqtt_connected
    · simp only [h1, if_true]
      exact ih
    · by_cases h2 : o.connectOk
      · simp only [h1, h2, if_true, if_false]
        simpa using ih
      · simp only [h1, h2, if_false]
        simpa using ih
  | poll o hr ih =>
    rename_i s'
    revert hv
    unfold handle_data_polling
    by_cases h1 : s'.modbus_connected ∧ s'.model_160_verified
    · simp only [h1, not_true, if_false]
      cases o.mpptData with
      | some d =>
        by_cases h2 : s'.mqtt_connected <;> by_cases h3 : o.publishOk <;>
          by_cases h4 : o.stillConnected <;> simp [h2, h3, h4] <;> exact ih
      | none => simp
    · simp only [h1, not_false_iff, if_true]
      exact ih

/-- Witness for C1: the state reached by one successful
connect-and-verify step from the initial state is verified, and the
theorem yields that it is connected. -/
theorem verified_implies_connected_witness :
    (handle_modbus_connection ⟨true, true, none⟩ ConnectionState.init).1.model_160_verified
        = true ∧
    (handle_modbus_connection ⟨true, true, none⟩ ConnectionState.init).1.modbus_connected
        = true :=
  ⟨rfl, verified_implies_connected _ (Reachable.modbus ⟨true, true, none⟩ Reachable.init) rfl⟩

/-- C4: a telemetry read failure in `handle_data_polling` clears
`modbus_connected` and `model_160_verified` and leaves the bus-side
fields untouched: `mqtt_connected` and `mqtt_retry_count` keep their
values, and the disposition to (re)publish discovery on a future
successful bus connect is unchanged. -/
theorem telemetry_read_failure_frame (o : PollingOracle) (s : ConnectionState)
    (hc : s.modbus_connected = true) (hv : s.model_160_verified = true)
    (hread : o.mpptData = none) :
    (handle_data_polling o s).modbus_connected = false ∧
    (handle_data_polling o s).model_160_verified = false ∧
    (handle_data_polling o s).mqtt_connected = s.mqtt_connected ∧
    (handle_data_polling o s).mqtt_retry_count = s.mqtt_retry_count ∧
    ∀ o₂ : MqttOracle,
      discoveryAttempted o₂ (handle_data_polling o s) = discoveryAttempted o₂ s := by
  simp [handle_data_polling, hc, hv, hread, discoveryAttempted]

/-- Witness for C4: a fully connected state with a failed read. -/
theorem telemetry_read_failure_frame_witness :
    (⟨true, true, true, none, 1, 2, 3⟩ : ConnectionState).modbus_connected = true ∧
    (handle_data_polling ⟨none, true, true⟩ ⟨true, true, true, none, 1, 2, 3⟩).modbus_connected
        = false ∧
    (handle_data_polling ⟨none, true, true⟩ ⟨true, true, true, none, 1, 2, 3⟩).model_160_verified
        = false ∧
    (handle_data_polling ⟨none, true, true⟩ ⟨true, true, true, none, 1, 2, 3⟩).mqtt_connected
        = (⟨true, true, true, none, 1, 2, 3⟩ : ConnectionState).mqtt_connected ∧
    (handle_data_polling ⟨none, true, true⟩ ⟨true, true, true, none, 1, 2, 3⟩).mqtt_retry_count
        = (⟨true, true, true, none, 1, 2, 3⟩ : ConnectionState).mqtt_retry_count :=
  ⟨rfl,
    (telemetry_read_failure_frame ⟨none, true, true⟩ ⟨true, true, true, none, 1, 2, 3⟩
      rfl rfl rfl).1,
    (telemetry_read_failure_frame ⟨none, true, true⟩ ⟨true, true, true, none, 1, 2, 3⟩
      rfl rfl rfl).2.1,
    (telemetry_read_failure_frame ⟨none, true, true⟩ ⟨true, true, true, none, 1, 2, 3⟩
      rfl rfl rfl).2.2.1,
    (telemetry_read_failure_frame ⟨none, true, true⟩ ⟨true, true, true, none, 1, 2, 3⟩
      rfl rfl rfl).2.2.2.1⟩

/-- C3: when a sensor-data publish fails and the publisher then reports
disconnected, `handle_data_polling` clears `mqtt_connected` while all
telemetry-side fields (`modbus_connected`, `model_160_verified`, both
telemetry retry counters, `device_info`) are unchanged; the code stores
no discovery-published flag, and discovery republication is instead
guaranteed structurally: any subsequent successful bus connect with a
known device identity attempts the discovery publication again. -/
theorem publish_failure_frame (o : PollingOracle) (s : ConnectionState) (d : MPPTData)
    (hbus : s.mqtt_connected = true)
    (hc : s.modbus_connected = true) (hv : s.model_160_verified = true)
    (hread : o.mpptData = some d) (hpub : o.publishOk = false)
    (hdisc : o.stillConnected = false) :
    (handle_data_polling o s).mqtt_connected = false ∧
    (handle_data_polling o s).modbus_connected = s.modbus_connected ∧
    (handle_data_polling o s).model_160_verified = s.model_160_verified ∧
    (handle_data_polling o s).modbus_retry_count = s.modbus_retry_count ∧
    (handle_data_polling o s).model_160_retry_count = s.model_160_retry_count ∧
    (handle_data_polling o s).device_info = s.device_info ∧
    ∀ o₂ : MqttOracle, o₂.connectOk = true → s.device_info.isSome = true →
      discoveryAttempted o₂ (handle_data_polling o s) = true := by
  refine ⟨?_, ?_, ?_, ?_, ?_, ?_, ?_⟩
  case refine_7 =>
    intro o₂ h1 h2
    simp [handle_data_polling, hbus, hc, hv, hread, hpub, hdisc, discoveryAttempted, h1, h2]
  all_goals
    simp [handle_data_polling, hbus, hc, hv, hread, hpub, hdisc, discoveryAttempted]

/-- Witness for C3: a fully connected state with known identity, a
successful read and a failed publish with the bus reporting itself
disconnected. -/
theorem publish_failure_frame_witness :
    (handle_data_polling ⟨some ⟨⟨0, 0, 0⟩, ⟨0, 0, 0⟩, 0, []⟩, false, false⟩
        ⟨true, true, true, some ⟨"F", "S", "1"⟩, 1, 2, 3⟩).mqtt_connected = false ∧
    (handle_data_polling ⟨some ⟨⟨0, 0, 0⟩, ⟨0, 0, 0⟩, 0, []⟩, false, false⟩
        ⟨true, true, true, some ⟨"F", "S", "1"⟩, 1, 2, 3⟩).device_info
      = (⟨true, true, true, some ⟨"F", "S", "1"⟩, 1, 2, 3⟩ : ConnectionState).device_info ∧
    discoveryAttempted ⟨true, true⟩
        (handle_data_polling ⟨some ⟨⟨0, 0, 0⟩, ⟨0, 0, 0⟩, 0, []⟩, false, false⟩
          ⟨true, true, true, some ⟨"F", "S", "1"⟩, 1, 2, 3⟩) = true :=
  ⟨(publish_failure_frame _ _ _ rfl rfl rfl rfl rfl rfl).1,
    (publish_failure_frame _ _ _ rfl rfl rfl rfl rfl rfl).2.2.2.2.2.1,
    (publish_failure_frame ⟨some ⟨⟨0, 0, 0⟩, ⟨0, 0, 0⟩, 0, []⟩, false, false⟩
        ⟨true, true, true, some ⟨"F", "S", "1"⟩, 1, 2, 3⟩ ⟨⟨0, 0, 0⟩, ⟨0, 0, 0⟩, 0, []⟩
        rfl rfl rfl rfl rfl rfl).2.2.2.2.2.2 ⟨true, true⟩ rfl rfl⟩

/-- C2: when exactly one module's core-field read raises while all
other modules read successfully, `read_mppt_data` still returns a
snapshot whose per-module list has one entry per module, the failing
module's entry is all-zero (with empty diagnostics), every other
module's entry is exactly the one its successful read produces, and
`total_power` is the sum of the remaining modules' powers, excluding
only the failed module's contribution. -/
theorem read_mppt_data_fault_isolation (d : DeviceRead) (j : Nat)
    (hj : j < d.modules.length)
    (hdev : d.hasDevice = true) (hmod : d.hasModel160 = true) (hread : d.readOk = true)
    (hfail : (d.modules.get ⟨j, hj⟩).core = none) :
    ∃ r : MPPTData, read_mppt_data d = some r ∧
      r.modules.length = d.modules.length ∧
      r.modules.get? j = some ⟨0, 0, 0, DiagnosticData.create none none none⟩ ∧
      (∀ i : Nat, i ≠ j → r.modules.get? i = (d.modules.get? i).map moduleOf) ∧
      r.total_power
        = (((d.modules.eraseIdx j).map channelOf).map MPPTChannelData.power).sum := by
  have hN : 1 ≤ d.modules.length := by omega
  refine ⟨_, read_mppt_data_eq_some d hdev hmod hread hN, ?_, ?_, ?_, ?_⟩
  · simp
  · have hfail' : d.modules[j].core = none := hfail
    rw [List.get?_map, List.get?_eq_get hj]
    simp [moduleOf, hfail']
  · intro i _
    rw [List.get?_map]
  · have hp := sum_map_get_add_eraseIdx (fun m => (channelOf m).power) d.modules j hj
    have hz : (channelOf (d.modules.get ⟨j, hj⟩)).power = 0 := by
      rw [channelOf, hfail]
    rw [List.map_map, List.map_map]
    simp only [Function.comp_def]
    rw [hp, hz, zero_add]

/-- Witness for C2: three modules, the middle one failing. -/
theorem read_mppt_data_fault_isolation_witness :
    ∃ r : MPPTData,
      read_mppt_data
          ⟨true, true, true,
            [⟨some (some 10, some 2, some 20), none, none, none⟩,
             ⟨none, none, none, none⟩,
             ⟨some (some 30, some 4, some 120), none, none, none⟩]⟩ = some r ∧
      r.modules.length = 3 ∧
      r.modules.get? 1 = some ⟨0, 0, 0, DiagnosticData.create none none none⟩ ∧
      r.total_power = 140 := by
  obtain ⟨r, hr, hlen, hget, _, hsum⟩ :=
    read_mppt_data_fault_isolation
      ⟨true, true, true,
        [⟨some (some 10, some 2, some 20), none, none, none⟩,
         ⟨none, none, none, none⟩,
         ⟨some (some 30, some 4, some 120), none, none, none⟩]⟩
      1 (by decide) rfl rfl rfl rfl
  refine ⟨r, hr, hlen, hget, ?_⟩
  rw [hsum]
  norm_num [List.eraseIdx, channelOf]

/-- C10: a successful read over `N ≥ 1` modules pads the channel list
with zero-valued channels up to two slots exactly when `N < 2`, keeps
the per-module diagnostics list at the actual module count `N`, and the
padding never contributes to `total_power` (which sums the unpadded
channels). -/
theorem read_mppt_data_padding (d : DeviceRead)
    (hdev : d.hasDevice = true) (hmod : d.hasModel160 = true) (hread : d.readOk = true)
    (hN : 1 ≤ d.modules.length) :
    ∃ r : MPPTData, read_mppt_data d = some r ∧
      2 ≤ (padChannels (d.modules.map channelOf)).length ∧
      (2 ≤ d.modules.length → padChannels (d.modules.map channelOf) = d.modules.map channelOf) ∧
      (d.modules.length = 1 →
        padChannels (d.modules.map channelOf) = d.modules.map channelOf ++ [⟨0, 0, 0⟩] ∧
        r.mppt2 = ⟨0, 0, 0⟩) ∧
      r.modules.length = d.modules.length ∧
      r.total_power = ((d.modules.map channelOf).map MPPTChannelData.power).sum := by
  refine ⟨_, read_mppt_data_eq_some d hdev hmod hread hN, ?_, ?_, ?_, ?_, ?_⟩
  · match hm : d.modules with
    | [] => rw [hm] at hN; simp at hN
    | [m] => simp [padChannels]
    | m₁ :: m₂ :: t => simp [padChannels]
  · intro h2
    match hm : d.modules with
    | [] => rw [hm] at hN; simp at hN
    | [m] => rw [hm] at h2; simp at h2
    | m₁ :: m₂ :: t => simp [padChannels]
  · intro h1
    match hm : d.modules with
    | [] => rw [hm] at hN; simp at hN
    | [m] => simp [padChannels]
    | m₁ :: m₂ :: t => rw [hm] at h1; simp at h1
  · simp
  · rfl

/-- Witness for C10: a single module is padded to a zero second channel
while the diagnostics list keeps length one. -/
theorem read_mppt_data_padding_witness :
    ∃ r : MPPTData,
      read_mppt_data ⟨true, true, true, [⟨some (some 10, some 2, some 20), none, none, none⟩]⟩
          = some r ∧
      r.mppt2 = ⟨0, 0, 0⟩ ∧ r.modules.length = 1 ∧ r.total_power = 20 := by
  obtain ⟨r, hr, _, _, hpad, hlen, hsum⟩ :=
    read_mppt_data_padding
      ⟨true, true, true, [⟨some (some 10, some 2, some 20), none, none, none⟩]⟩
      rfl rfl rfl (by decide)
  refine ⟨r, hr, (hpad rfl).2, hlen, ?_⟩
  rw [hsum]
  norm_num [channelOf]

end Fronius
